import Mathlib

/-!
Shallow embedding of `src/run_scraper.js`: a single-shot CLI wrapper around the
`google-news-scraper` package.  The script reads `process.argv[2]`, validates it,
builds a fixed configuration object, invokes the scraper once, and either
pretty-prints the returned articles to stdout (exit 0) or writes a single-line
JSON error report to stderr and exits 1.

JavaScript values returned by (or thrown from) the external scraper are modelled
by the inductive type `JsVal` (JSON-like values, plus a `bigint` constructor for
the values `JSON.stringify` refuses to serialize).  Thrown errors are modelled by
`JsError`, carrying the optional `message` field that the catch block reads.
Numbers are modelled as integers: no claim depends on float formatting.
-/

/-- A thrown JavaScript error value, as observed by the catch block: the script
only ever reads its `message` property, which is `undefined` (`none`) when the
thrown value carries no message string. -/
structure JsError where
  message : Option String
deriving Repr, DecidableEq

/-- JSON-like JavaScript values.  `bigint` represents the BigInt values on which
`JSON.stringify` throws a TypeError. -/
inductive JsVal where
  | null
  | boolean (b : Bool)
  | num (n : Int)
  | str (s : String)
  | arr (elems : List JsVal)
  | obj (fields : List (String × JsVal))
  | bigint (n : Int)
deriving Repr

/-- Rendering of `${x}` when `x` is `error.message`: the string itself when
present, the text `undefined` when the property is absent. -/
def messageString (e : JsError) : String :=
  match e.message with
  | some m => m
  | none => "undefined"

/-- One hexadecimal digit. -/
def hexDigit (n : Nat) : Char :=
  if n < 10 then Char.ofNat (48 + n) else Char.ofNat (87 + n)

/-- Four-digit hexadecimal rendering used by the `\u00XX` escapes of
`JSON.stringify`. -/
def hex4 (n : Nat) : String :=
  String.mk [hexDigit (n / 4096 % 16), hexDigit (n / 256 % 16),
             hexDigit (n / 16 % 16), hexDigit (n % 16)]

/-- Escaping of one character inside a JSON string literal, as performed by
`JSON.stringify`. -/
def escapeJsonChar (c : Char) : String :=
  if c = '"' then "\\\""
  else if c = '\\' then "\\\\"
  else if c = '\n' then "\\n"
  else if c = '\r' then "\\r"
  else if c = '\t' then "\\t"
  else if c = '\x08' then "\\b"
  else if c = '\x0c' then "\\f"
  else if c.toNat < 32 then "\\u" ++ hex4 c.toNat
  else String.singleton c

/-- A JSON string literal: the escaped characters between double quotes. -/
def quoteJson (s : String) : String :=
  "\"" ++ String.join (s.data.map escapeJsonChar) ++ "\""

mutual
/-- Compact `JSON.stringify(v)` (no indent argument), as used for the error
reports.  Fails with the TypeError message on BigInt values. -/
def stringifyVal : JsVal → Except JsError String
  | .null => .ok "null"
  | .boolean true => .ok "true"
  | .boolean false => .ok "false"
  | .num n => .ok (toString n)
  | .str s => .ok (quoteJson s)
  | .arr elems =>
      match stringifyArr elems with
      | .error e => .error e
      | .ok body => .ok ("[" ++ body ++ "]")
  | .obj fields =>
      match stringifyObj fields with
      | .error e => .error e
      | .ok body => .ok ("\x7b" ++ body ++ "\x7d")
  | .bigint _ => .error ⟨some "Do not know how to serialize a BigInt"⟩

/-- Comma-joined compact serialization of array elements. -/
def stringifyArr : List JsVal → Except JsError String
  | [] => .ok ""
  | [v] => stringifyVal v
  | v :: w :: rest =>
      match stringifyVal v with
      | .error e => .error e
      | .ok s =>
          match stringifyArr (w :: rest) with
          | .error e => .error e
          | .ok r => .ok (s ++ "," ++ r)

/-- Comma-joined compact serialization of object members. -/
def stringifyObj : List (String × JsVal) → Except JsError String
  | [] => .ok ""
  | [(k, v)] =>
      match stringifyVal v with
      | .error e => .error e
      | .ok s => .ok (quoteJson k ++ ":" ++ s)
  | (k, v) :: f :: rest =>
      match stringifyVal v with
      | .error e => .error e
      | .ok s =>
          match stringifyObj (f :: rest) with
          | .error e => .error e
          | .ok r => .ok (quoteJson k ++ ":" ++ s ++ "," ++ r)
end

mutual
/-- Indented `JSON.stringify(v, null, 2)`, as used for the article output.
`ind` is the indentation accumulated at the current nesting level; each level
adds two spaces, members of indented objects are rendered `"key": value`. -/
def stringifyIndVal (ind : String) : JsVal → Except JsError String
  | .null => .ok "null"
  | .boolean true => .ok "true"
  | .boolean false => .ok "false"
  | .num n => .ok (toString n)
  | .str s => .ok (quoteJson s)
  | .arr [] => .ok "[]"
  | .arr (v :: rest) =>
      match stringifyIndArr (ind ++ "  ") (v :: rest) with
      | .error e => .error e
      | .ok body =>
          .ok ("[\n" ++ ind ++ "  " ++ body ++ "\n" ++ ind ++ "]")
  | .obj [] => .ok "\x7b\x7d"
  | .obj (f :: rest) =>
      match stringifyIndObj (ind ++ "  ") (f :: rest) with
      | .error e => .error e
      | .ok body =>
          .ok ("\x7b\n" ++ ind ++ "  " ++ body ++ "\n" ++ ind ++ "\x7d")
  | .bigint _ => .error ⟨some "Do not know how to serialize a BigInt"⟩

/-- Elements of a non-empty array under indentation `ind`, separated by
`,\n` plus the indentation. -/
def stringifyIndArr (ind : String) : List JsVal → Except JsError String
  | [] => .ok ""
  | [v] => stringifyIndVal ind v
  | v :: w :: rest =>
      match stringifyIndVal ind v with
      | .error e => .error e
      | .ok s =>
          match stringifyIndArr ind (w :: rest) with
          | .error e => .error e
          | .ok r => .ok (s ++ ",\n" ++ ind ++ r)

/-- Members of a non-empty object under indentation `ind`. -/
def stringifyIndObj (ind : String) : List (String × JsVal) → Except JsError String
  | [] => .ok ""
  | [(k, v)] =>
      match stringifyIndVal ind v with
      | .error e => .error e
      | .ok s => .ok (quoteJson k ++ ": " ++ s)
  | (k, v) :: f :: rest =>
      match stringifyIndVal ind v with
      | .error e => .error e
      | .ok s =>
          match stringifyIndObj ind (f :: rest) with
          | .error e => .error e
          | .ok r => .ok (quoteJson k ++ ": " ++ s ++ ",\n" ++ ind ++ r)
end

/-- The configuration object literal passed to `googleNewsScraper`. -/
structure RetrievalConfig where
  searchTerm : String
  prettyURLs : Bool
  timeframe : String
  puppeteerArgs : List String
  logLevel : String
  limit : Nat
deriving Repr, DecidableEq

/-- The configuration object built in `main`: every field except `searchTerm`
is a fixed literal. -/
def mkConfig (searchTerm : String) : RetrievalConfig :=
  { searchTerm := searchTerm
    prettyURLs := true
    timeframe := "7d"
    puppeteerArgs := ["--no-sandbox", "--disable-setuid-sandbox"]
    logLevel := "error"
    limit := 15 }

/-- Serialization of the object literal built from `msg` in the two
`console.error` calls: the single-line error report written to stderr,
compact `JSON.stringify` of a one-field object. -/
def errorReport (msg : String) : String :=
  "\x7b" ++ quoteJson "error" ++ ":" ++ quoteJson msg ++ "\x7d"

/-- Observable outcome of one process run: the lines written by `console.log`
(stdout) and `console.error` (stderr) in order, the process exit status, and
the list of configurations with which the scraper was invoked, in call order. -/
structure RunResult where
  stdout : List String
  stderr : List String
  exitCode : Nat
  providerCalls : List RetrievalConfig
deriving Repr, DecidableEq

/-- The body of `main` once `process.argv[2]` has been read into `term?`
(`none` when the argument is absent).  `provider` models `googleNewsScraper`:
it either returns the articles value or throws a `JsError`.  The single
`.error` arm models the catch block, reached both when the provider throws and
when `JSON.stringify(articles, null, 2)` throws. -/
def runWith (term? : Option String)
    (provider : RetrievalConfig → Except JsError JsVal) : RunResult :=
  match term? with
  | none =>
      ⟨[], [errorReport "No search term provided."], 1, []⟩
  | some searchTerm =>
      if searchTerm = "" then
        ⟨[], [errorReport "No search term provided."], 1, []⟩
      else
        let cfg := mkConfig searchTerm
        match provider cfg >>= stringifyIndVal "" with
        | .error e =>
            ⟨[], [errorReport ("Scraper failed: " ++ messageString e)], 1, [cfg]⟩
        | .ok out =>
            ⟨[out], [], 0, [cfg]⟩

/-- Whole-process behaviour of `main`: read `process.argv[2]` and run.
`argv` is the full `process.argv` list (`argv[0]` the node binary, `argv[1]`
the script path, `argv[2]` the first positional argument). -/
def runMain (argv : List String)
    (provider : RetrievalConfig → Except JsError JsVal) : RunResult :=
  runWith argv[2]? provider

/-- The truthiness test `!searchTerm` of the script, as a predicate on the
whole argv: true exactly when a non-empty search term is present. -/
def hasValidTerm (argv : List String) : Bool :=
  match argv[2]? with
  | none => false
  | some t => t != ""

example : runMain ["node", "run_scraper.js"] (fun _ => .ok .null) =
    ⟨[], ["\x7b\"error\":\"No search term provided.\"\x7d"], 1, []⟩ := by decide

example : runMain ["node", "run_scraper.js", "budget 2024"] (fun _ => .ok (.arr [])) =
    ⟨["[]"], [], 0, [mkConfig "budget 2024"]⟩ := by decide

example : runMain ["node", "run_scraper.js", "x"] (fun _ => .error ⟨some "network timeout"⟩) =
    ⟨[], ["\x7b\"error\":\"Scraper failed: network timeout\"\x7d"], 1, [mkConfig "x"]⟩ := by
  decide

/-! ## Helper lemmas -/

theorem errBind (e : JsError) (f : JsVal → Except JsError String) :
    (Except.error e >>= f) = Except.error e := rfl

theorem okBind (v : JsVal) (f : JsVal → Except JsError String) :
    (Except.ok v >>= f : Except JsError String) = f v := rfl

theorem runWith_none (provider : RetrievalConfig → Except JsError JsVal) :
    runWith none provider =
      ⟨[], [errorReport "No search term provided."], 1, []⟩ := rfl

theorem runWith_empty (provider : RetrievalConfig → Except JsError JsVal) :
    runWith (some "") provider =
      ⟨[], [errorReport "No search term provided."], 1, []⟩ := rfl

theorem errorReport_missing :
    errorReport "No search term provided." =
      "\x7b\"error\":\"No search term provided.\"\x7d" := by decide

theorem runWith_valid (t : String) (hne : t ≠ "")
    (provider : RetrievalConfig → Except JsError JsVal) :
    runWith (some t) provider =
      match provider (mkConfig t) >>= stringifyIndVal "" with
      | .error e =>
          ⟨[], [errorReport ("Scraper failed: " ++ messageString e)], 1, [mkConfig t]⟩
      | .ok out => ⟨[out], [], 0, [mkConfig t]⟩ := by
  simp [runWith, hne]

/-! ## Claims -/

/-- C1: whenever the positional search-term argument is absent or empty, the
run makes no call to the provider, writes the single-line JSON error report
with message `No search term provided.` to stderr, writes nothing to stdout,
and exits with status 1. -/
theorem missing_term_behaviour (argv : List String)
    (provider : RetrievalConfig → Except JsError JsVal)
    (h : argv[2]? = none ∨ argv[2]? = some "") :
    runMain argv provider =
      ⟨[], ["\x7b\"error\":\"No search term provided.\"\x7d"], 1, []⟩ := by
  rcases h with h | h <;>
    rw [runMain, h] <;>
    simp only [runWith_none, runWith_empty, errorReport_missing]

theorem missing_term_behaviour_witness :
    runMain ["node", "run_scraper.js"] (fun _ => .ok .null) =
      ⟨[], ["\x7b\"error\":\"No search term provided.\"\x7d"], 1, []⟩ :=
  missing_term_behaviour ["node", "run_scraper.js"] (fun _ => .ok .null) (.inl rfl)

/-- C2: with a valid (non-empty) search term, if the provider fails with an
error carrying message `m`, the run writes the single-line JSON error report
with message `Scraper failed: ` ++ `m` to stderr, writes nothing to stdout,
and exits with status 1. -/
theorem provider_failure_behaviour (argv : List String)
    (provider : RetrievalConfig → Except JsError JsVal) (t m : String)
    (ht : argv[2]? = some t) (hne : t ≠ "")
    (hp : provider (mkConfig t) = .error ⟨some m⟩) :
    runMain argv provider =
      ⟨[], [errorReport ("Scraper failed: " ++ m)], 1, [mkConfig t]⟩ := by
  rw [runMain, ht, runWith_valid t hne, hp, errBind]
  rfl

theorem provider_failure_behaviour_witness :
    runMain ["node", "run_scraper.js", "x"] (fun _ => .error ⟨some "network timeout"⟩) =
      ⟨[], ["\x7b\"error\":\"Scraper failed: network timeout\"\x7d"], 1, [mkConfig "x"]⟩ := by
  have h := provider_failure_behaviour ["node", "run_scraper.js", "x"]
    (fun _ => .error ⟨some "network timeout"⟩) "x" "network timeout" rfl (by decide) rfl
  rw [h]; decide

/-- C3: with a valid search term, if the provider returns a result set (a
JSON-serializable value, whose indented serialization is `out`), the run
writes exactly `out` to stdout, writes nothing to stderr, and exits with
status 0. -/
theorem success_behaviour (argv : List String)
    (provider : RetrievalConfig → Except JsError JsVal) (t : String)
    (v : JsVal) (out : String)
    (ht : argv[2]? = some t) (hne : t ≠ "")
    (hp : provider (mkConfig t) = .ok v)
    (hs : stringifyIndVal "" v = .ok out) :
    runMain argv provider = ⟨[out], [], 0, [mkConfig t]⟩ := by
  rw [runMain, ht, runWith_valid t hne, hp, okBind, hs]

theorem success_behaviour_witness :
    runMain ["node", "run_scraper.js", "budget 2024"]
        (fun _ => .ok (.arr [.obj [("title", .str "a")]])) =
      ⟨["[\n  \x7b\n    \"title\": \"a\"\n  \x7d\n]"], [], 0, [mkConfig "budget 2024"]⟩ :=
  success_behaviour ["node", "run_scraper.js", "budget 2024"]
    (fun _ => .ok (.arr [.obj [("title", .str "a")]])) "budget 2024"
    (.arr [.obj [("title", .str "a")]]) "[\n  \x7b\n    \"title\": \"a\"\n  \x7d\n]"
    rfl (by decide) rfl rfl

/-- C4: for every valid search term, the configuration record passed to the
provider is exactly the fixed record — readable URLs, 7-day timeframe, limit
15, the two sandbox-disabling puppeteer flags, error-only log level — varying
only in its `searchTerm` field. -/
theorem config_fixed_fields (argv : List String)
    (provider : RetrievalConfig → Except JsError JsVal) (t : String)
    (ht : argv[2]? = some t) (hne : t ≠ "") :
    (runMain argv provider).providerCalls =
      [⟨t, true, "7d", ["--no-sandbox", "--disable-setuid-sandbox"], "error", 15⟩] := by
  rw [runMain, ht, runWith_valid t hne]
  cases provider (mkConfig t) >>= stringifyIndVal "" <;> rfl

theorem config_fixed_fields_witness :
    (runMain ["node", "run_scraper.js", "budget 2024"] (fun _ => .ok .null)).providerCalls =
      [⟨"budget 2024", true, "7d", ["--no-sandbox", "--disable-setuid-sandbox"],
        "error", 15⟩] :=
  config_fixed_fields ["node", "run_scraper.js", "budget 2024"]
    (fun _ => .ok .null) "budget 2024" rfl (by decide)

/-- C5: with a valid search term, whatever value `v` the provider returns, the
stdout of the run is exactly the indented JSON serialization of that very
value `v` — same elements, same fields, same order, no transformation — and
nothing when `v` does not serialize.  The stdout is determined by `v` alone. -/
theorem pass_through_fidelity (argv : List String)
    (provider : RetrievalConfig → Except JsError JsVal) (t : String) (v : JsVal)
    (ht : argv[2]? = some t) (hne : t ≠ "")
    (hp : provider (mkConfig t) = .ok v) :
    (runMain argv provider).stdout =
      (match stringifyIndVal "" v with
       | .ok out => [out]
       | .error _ => ([] : List String)) := by
  rw [runMain, ht, runWith_valid t hne, hp, okBind]
  cases stringifyIndVal "" v <;> rfl

theorem pass_through_fidelity_witness :
    (runMain ["node", "run_scraper.js", "x"]
        (fun _ => .ok (.arr [.num 2, .num 1]))).stdout =
      (match stringifyIndVal "" (.arr [.num 2, .num 1]) with
       | .ok out => [out]
       | .error _ => ([] : List String)) :=
  pass_through_fidelity ["node", "run_scraper.js", "x"]
    (fun _ => .ok (.arr [.num 2, .num 1])) "x" (.arr [.num 2, .num 1])
    rfl (by decide) rfl

/-- C6: the provider is invoked exactly once per run when a valid (non-empty)
search term is supplied — on the success and on the failure path alike — and
zero times otherwise; in particular it is never invoked more than once. -/
theorem provider_called_once (argv : List String)
    (provider : RetrievalConfig → Except JsError JsVal) :
    (runMain argv provider).providerCalls.length =
      (if hasValidTerm argv then 1 else 0) := by
  rw [runMain, hasValidTerm]
  cases h : argv[2]? with
  | none => rfl
  | some t =>
      by_cases hne : t = ""
      · subst hne; rfl
      · rw [runWith_valid t hne]
        cases provider (mkConfig t) >>= stringifyIndVal "" <;>
          simp [hne]

/-- C7: stdout and stderr are mutually exclusive and all-or-nothing: every run
either writes a single stdout line, nothing to stderr and exits 0, or writes
nothing to stdout, a single stderr line and exits 1. -/
theorem output_streams_exclusive (argv : List String)
    (provider : RetrievalConfig → Except JsError JsVal) :
    (∃ s, (runMain argv provider).stdout = [s] ∧
          (runMain argv provider).stderr = [] ∧
          (runMain argv provider).exitCode = 0) ∨
    (∃ e, (runMain argv provider).stdout = [] ∧
          (runMain argv provider).stderr = [e] ∧
          (runMain argv provider).exitCode = 1) := by
  rw [runMain]
  cases h : argv[2]? with
  | none => exact .inr ⟨_, rfl, rfl, rfl⟩
  | some t =>
      by_cases hne : t = ""
      · subst hne; exact .inr ⟨_, rfl, rfl, rfl⟩
      · rw [runWith_valid t hne]
        cases provider (mkConfig t) >>= stringifyIndVal "" with
        | error e => exact .inr ⟨_, rfl, rfl, rfl⟩
        | ok out => exact .inl ⟨_, rfl, rfl, rfl⟩

/-- C8: with a valid search term, if the provider fails with an error value
carrying no message string, the run still exits with status 1 and writes the
well-formed single-line report whose message is `Scraper failed: undefined`
to stderr. -/
theorem provider_failure_no_message (argv : List String)
    (provider : RetrievalConfig → Except JsError JsVal) (t : String) (e : JsError)
    (ht : argv[2]? = some t) (hne : t ≠ "")
    (hp : provider (mkConfig t) = .error e) (hm : e.message = none) :
    runMain argv provider =
      ⟨[], ["\x7b\"error\":\"Scraper failed: undefined\"\x7d"], 1, [mkConfig t]⟩ := by
  rw [runMain, ht, runWith_valid t hne, hp, errBind]
  obtain ⟨msg⟩ := e
  replace hm : msg = none := hm
  subst hm
  show RunResult.mk []
      [errorReport ("Scraper failed: " ++ messageString ⟨none⟩)] 1 [mkConfig t] = _
  rw [show errorReport ("Scraper failed: " ++ messageString ⟨none⟩) =
      "\x7b\"error\":\"Scraper failed: undefined\"\x7d" from by decide]

theorem provider_failure_no_message_witness :
    runMain ["node", "run_scraper.js", "x"] (fun _ => .error ⟨none⟩) =
      ⟨[], ["\x7b\"error\":\"Scraper failed: undefined\"\x7d"], 1, [mkConfig "x"]⟩ :=
  provider_failure_no_message ["node", "run_scraper.js", "x"]
    (fun _ => .error ⟨none⟩) "x" ⟨none⟩ rfl (by decide) rfl rfl

/-- C9: if the provider returns a value whose serialization itself throws, the
run takes the same path as a provider failure — stderr gets the
`Scraper failed: ` report with the serializer's message, stdout stays empty,
exit status is 1 — and conversely exit status 0 implies the provider's value
was fully serialized and emitted on stdout. -/
theorem serialization_failure_behaviour (argv : List String)
    (provider : RetrievalConfig → Except JsError JsVal) :
    (∀ t v e, argv[2]? = some t → t ≠ "" →
      provider (mkConfig t) = .ok v → stringifyIndVal "" v = .error e →
      runMain argv provider =
        ⟨[], [errorReport ("Scraper failed: " ++ messageString e)], 1, [mkConfig t]⟩) ∧
    ((runMain argv provider).exitCode = 0 →
      ∃ t v out, argv[2]? = some t ∧ provider (mkConfig t) = .ok v ∧
        stringifyIndVal "" v = .ok out ∧ (runMain argv provider).stdout = [out]) := by
  constructor
  · intro t v e ht hne hp hs
    rw [runMain, ht, runWith_valid t hne, hp, okBind, hs]
  · intro h0
    rw [runMain] at h0 ⊢
    cases ht : argv[2]? with
    | none => rw [ht, runWith_none] at h0; simp at h0
    | some t =>
        rw [ht] at h0
        by_cases hne : t = ""
        · subst hne; rw [runWith_empty] at h0; simp at h0
        · rw [runWith_valid t hne] at h0 ⊢
          cases hb : provider (mkConfig t) >>= stringifyIndVal "" with
          | error e => rw [hb] at h0; simp at h0
          | ok out =>
              cases hp : provider (mkConfig t) with
              | error e =>
                  rw [hp, errBind] at hb
                  exact Except.noConfusion hb
              | ok v =>
                  rw [hp, okBind] at hb
                  exact ⟨t, v, out, rfl, hp, hb, rfl⟩

theorem serialization_failure_behaviour_witness :
    runMain ["node", "run_scraper.js", "x"] (fun _ => .ok (.bigint 7)) =
      ⟨[], ["\x7b\"error\":\"Scraper failed: Do not know how to serialize a BigInt\"\x7d"],
        1, [mkConfig "x"]⟩ := by
  have h := (serialization_failure_behaviour ["node", "run_scraper.js", "x"]
      (fun _ => .ok (.bigint 7))).1 "x" (.bigint 7)
      ⟨some "Do not know how to serialize a BigInt"⟩ rfl (by decide) rfl rfl
  rw [h]; decide

/-- C10: only the first positional argument (`process.argv[2]`) is read: any
two invocations agreeing on it — regardless of any additional arguments —
produce the same provider configuration and the same stdout, stderr and exit
status against the same provider. -/
theorem only_first_positional_read (argv argw : List String)
    (provider : RetrievalConfig → Except JsError JsVal)
    (h : argv[2]? = argw[2]?) :
    runMain argv provider = runMain argw provider := by
  rw [runMain, runMain, h]

theorem only_first_positional_read_witness :
    runMain ["node", "run_scraper.js", "x", "extra", "args"] (fun _ => .ok .null) =
      runMain ["node", "run_scraper.js", "x"] (fun _ => .ok .null) :=
  only_first_positional_read ["node", "run_scraper.js", "x", "extra", "args"]
    ["node", "run_scraper.js", "x"] (fun _ => .ok .null) rfl
